import Mathlib

/-!
Verification of the IT helpdesk bot's session context engine and
tool-dispatch orchestration loop.

This file gives a shallow embedding of the relevant parts of the
repository's Python sources and proves properties about them:

* `backend/ticket_management.py` — ticket creation with keyword-driven
  priority/category derivation, id generation, overdue computation;
* `backend/context_manager.py`   — per-session context memory with
  bounded lists, follow-up intent detection, batch-query splitting;
* `backend/functions.py`         — the tool dispatcher `call_tool_by_name`;
* `backend/main.py`              — the bounded tool-calling orchestration
  loop of the `/chat` endpoint and its per-tool context updates.

Modelling conventions: Python strings are Lean `String`s; timestamps
(`datetime.now()`) are `Nat` parameters measured in hours, so
`timedelta(hours = h)` is `+ h`; Python dict payloads are structures with
the fields the code actually uses; external collaborators (the JSON
parser `json.loads`, the LLM completion client and the underlying tool
implementations, which may raise) are function parameters, the latter
returning `Except` to model raised exceptions.  All definitions are
executable and structurally recursive so concrete runs evaluate by
`decide`/`rfl`.
-/

namespace Helpdesk

/-! ### Python string primitives: `str.lower`, the `in` operator, `str.strip` -/

/-- Python `str.lower` on the ASCII range (every string the embedded code
compares is ASCII). -/
def lowerChar (c : Char) : Char :=
  if 'A' ≤ c ∧ c ≤ 'Z' then Char.ofNat (c.toNat + 32) else c

def lowerStr (s : String) : String :=
  String.mk (s.data.map lowerChar)

/-- `chStarts needle hay`: `needle` is a leading run of `hay`. -/
def chStarts : List Char → List Char → Bool
  | [], _ => true
  | _ :: _, [] => false
  | a :: as, b :: bs => a == b && chStarts as bs

/-- Python's substring test `needle in hay` on char lists. -/
def containsL (needle : List Char) : List Char → Bool
  | [] => needle.isEmpty
  | c :: rest => chStarts needle (c :: rest) || containsL needle rest

/-- Python's substring test `needle in hay` on strings. -/
def containsSub (needle hay : String) : Bool :=
  containsL needle.data hay.data

/-- Python whitespace (`\s`, `str.strip`): space, tab, newline, carriage
return, vertical tab, form feed. -/
def isWsChar (c : Char) : Bool :=
  c == ' ' || c == '\t' || c == '\n' || c == '\r' ||
  c == Char.ofNat 11 || c == Char.ofNat 12

/-- Python `str.strip()` on char lists. -/
def pyStripL (l : List Char) : List Char :=
  ((l.dropWhile isWsChar).reverse.dropWhile isWsChar).reverse

/-! ### `backend/ticket_management.py` -/

namespace TicketManagement

open Helpdesk

def critical_keywords : List String :=
  ["server down", "system crash", "security breach", "cannot login", "total outage"]

def urgent_keywords : List String :=
  ["urgent", "asap", "critical", "emergency", "broken", "not working at all"]

def high_keywords : List String :=
  ["important", "deadline", "multiple users", "department", "slow performance"]

/-- `determine_priority`: auto-determine ticket priority from keywords in the
issue description (critical keywords, then urgent, then high, else Medium). -/
def determine_priority (issue_description : String) : String :=
  let issue_lower := lowerStr issue_description
  if critical_keywords.any (fun k => containsSub k issue_lower) then "Critical"
  else if urgent_keywords.any (fun k => containsSub k issue_lower) then "Urgent"
  else if high_keywords.any (fun k => containsSub k issue_lower) then "High"
  else "Medium"

/-- `category_keywords`, in the dict's insertion (= iteration) order. -/
def category_keywords : List (String × List String) :=
  [("Network", ["wifi", "vpn", "internet", "connection", "network", "dns", "ip"]),
   ("Email", ["email", "outlook", "exchange", "mail", "smtp", "sync"]),
   ("Hardware", ["printer", "monitor", "keyboard", "mouse", "laptop", "desktop", "hardware"]),
   ("Software", ["software", "application", "install", "update", "program", "app"]),
   ("Security", ["password", "login", "access", "permission", "security", "virus", "malware"]),
   ("Account", ["account", "user", "profile", "permissions", "access rights"])]

/-- `categorize_issue`: first category (in table order) with a matching
keyword, default General. -/
def categorize_issue (issue_description : String) : String :=
  let issue_lower := lowerStr issue_description
  match category_keywords.find? (fun ck => ck.2.any (fun k => containsSub k issue_lower)) with
  | some ck => ck.1
  | none => "General"

/-- `it_staff`: (id, name, specialties). -/
def it_staff : List (String × String × List String) :=
  [("tech001", "Alex Johnson", ["Network", "Security"]),
   ("tech002", "Sarah Chen", ["Software", "Email"]),
   ("tech003", "Mike Rodriguez", ["Hardware", "General"]),
   ("tech004", "Emily Davis", ["Account", "Security"])]

/-- `auto_assign_ticket`: first staff member whose specialties contain the
category, default team. -/
def auto_assign_ticket (category : String) : String :=
  match it_staff.find? (fun st => st.2.2.contains category) with
  | some st => st.2.1
  | none => "IT Support Team"

/-- Big-endian decimal digits, fuel-structured so it reduces in the kernel
(the fuel `n+1` always suffices: each step divides by 10). -/
def toDigitsAux : Nat → Nat → List Nat
  | 0, _ => []
  | fuel + 1, n => if n < 10 then [n] else toDigitsAux fuel (n / 10) ++ [n % 10]

/-- Decimal digits of `n`, most significant first (`decDigits 0 = [0]`,
matching Python `repr`). -/
def decDigits (n : Nat) : List Nat :=
  toDigitsAux (n + 1) n

/-- Left-pad a digit list with zeros to width 4 (Python's `%04d`). -/
def pad4 (ds : List Nat) : List Nat :=
  List.replicate (4 - ds.length) 0 ++ ds

/-- The `{n:04d}` part of `generate_ticket_id`. -/
def seq_string (n : Nat) : String :=
  String.mk ((pad4 (decDigits n)).map Nat.digitChar)

/-- The numeric value of a big-endian digit list (specification-side
inverse of `decDigits`, for the id-uniqueness proofs). -/
def valBE (l : List Nat) : Nat :=
  l.foldl (fun acc d => 10 * acc + d) 0

/-- `generate_ticket_id`: `INC` + date (`%Y%m%d` of the current day) +
zero-padded `len(ticket_database) + 1`. -/
def generate_ticket_id (date : String) (db_len : Nat) : String :=
  "INC" ++ date ++ seq_string (db_len + 1)

/-- The `resolution_hours` dict lookup with its `.get(priority, 72)`
default. -/
def resolution_hours (priority : String) : Nat :=
  if priority = "Critical" then 2
  else if priority = "Urgent" then 4
  else if priority = "High" then 24
  else if priority = "Medium" then 72
  else if priority = "Low" then 168
  else 72

structure Comment where
  timestamp : Nat
  author : String
  text : String
deriving Repr, DecidableEq

structure Ticket where
  id : String
  issue : String
  status : String
  priority : String
  category : String
  created_by : String
  assigned_to : String
  created_at : Nat
  updated_at : Nat
  estimated_resolution : Nat
  comments : List Comment
  resolution : Option String
deriving Repr, DecidableEq

/-- `create_enhanced_ticket`.  `db` is the current `ticket_database`, `now`
the current time (hours) and `date` today's `%Y%m%d` string; returns the
new ticket and the extended database.  `priority`/`category` are the
optional keyword arguments; Python's `if not priority` also treats an
explicit empty string as absent. -/
def create_enhanced_ticket (db : List Ticket) (now : Nat) (date : String)
    (issue : String) (created_by : String)
    (priority : Option String) (category : Option String) :
    Ticket × List Ticket :=
  let ticket_id := generate_ticket_id date db.length
  let priority := match priority with
    | some p => if p = "" then determine_priority issue else p
    | none => determine_priority issue
  let category := match category with
    | some c => if c = "" then categorize_issue issue else c
    | none => categorize_issue issue
  let estimated_resolution := now + resolution_hours priority
  let t : Ticket :=
    { id := ticket_id
      issue := issue
      status := "Open"
      priority := priority
      category := category
      created_by := created_by
      assigned_to := auto_assign_ticket category
      created_at := now
      updated_at := now
      estimated_resolution := estimated_resolution
      comments := []
      resolution := none }
  (t, db ++ [t])

/-- `get_status_description`. -/
def get_status_description (status : String) : String :=
  if status = "Open" then
    "Your ticket has been received and is waiting to be assigned to a technician."
  else if status = "In Progress" then
    "A technician is actively working on your issue."
  else if status = "Pending User Response" then
    "We need additional information from you to continue resolving this issue."
  else if status = "Resolved" then
    "The issue has been resolved. Please confirm if the solution works for you."
  else if status = "Closed" then
    "This ticket has been closed. Contact us if you need further assistance."
  else if status = "Cancelled" then
    "This ticket has been cancelled at the user's request."
  else "Status unknown"

structure StatusInfo where
  ticket : Ticket
  time_elapsed_hours : Nat
  is_overdue : Bool
  status_description : String
deriving Repr, DecidableEq

/-- `get_ticket_status`: find the ticket by id and report elapsed time and
overdue state (`none` models the Python not-found error dict). -/
def get_ticket_status (db : List Ticket) (now : Nat) (ticket_id : String) :
    Option StatusInfo :=
  match db.find? (fun t => t.id == ticket_id) with
  | none => none
  | some t =>
      some { ticket := t
             time_elapsed_hours := now - t.created_at
             is_overdue := decide (now > t.estimated_resolution) &&
               !(t.status == "Resolved" || t.status == "Closed")
             status_description := get_status_description t.status }

end TicketManagement

/-! ### `backend/context_manager.py` -/

namespace ContextManager

open Helpdesk

structure LastIssue where
  description : String
  timestamp : Nat
deriving Repr, DecidableEq

/-- The `{"type": ..., "started": ...}` dict stored for a troubleshooting
flow. -/
structure FlowMem where
  type : String
  started : Bool
deriving Repr, DecidableEq

/-- The `{"issue": ..., "tool_result": ...}` dict stored for a recent
ticket. -/
structure TicketMem where
  issue : String
  tool_result : String
deriving Repr, DecidableEq

/-- A `search_history` entry `{"query", "results", "timestamp"}`. -/
structure SearchMem where
  query : String
  results : String
  timestamp : Nat
deriving Repr, DecidableEq

/-- The `session["context"]` dict of `get_enhanced_session`.  The
`batch_processing`/`total_queries` keys are merged in by
`update_conversation_state` when `main.py` batches a message. -/
structure SessionContext where
  state : String
  last_issue : Option LastIssue
  current_troubleshooting_flow : Option FlowMem
  recent_tickets : List TicketMem
  search_history : List SearchMem
  user_preferences : List (String × String)
  batch_processing : Bool
  total_queries : Nat
deriving Repr, DecidableEq

/-- The freshly initialized context of `get_enhanced_session`. -/
def initContext : SessionContext :=
  { state := "general"
    last_issue := none
    current_troubleshooting_flow := none
    recent_tickets := []
    search_history := []
    user_preferences := []
    batch_processing := false
    total_queries := 0 }

/-- One `add_context_memory(session_id, context_type, data)` call: the
`context_type` string together with the `data` payload of that kind
(plus the `datetime.now()` timestamp the code attaches). -/
inductive MemOp where
  | lastIssue (description : String) (timestamp : Nat)
  | currentFlow (flow : FlowMem)
  | recentTicket (t : TicketMem)
  | searchResults (query : String) (results : String) (timestamp : Nat)
  | userPreferences (prefs : List (String × String))
deriving Repr, DecidableEq

/-- Python `dict` single-key update used by `user_preferences.update`. -/
def setPref (m : List (String × String)) (kv : String × String) :
    List (String × String) :=
  if m.any (fun p => p.1 == kv.1) then
    m.map (fun p => if p.1 == kv.1 then kv else p)
  else m ++ [kv]

/-- `add_context_memory`: kind-specific overwrite / prepend-and-truncate
(`recent_tickets` capped at 5, `search_history` at 10) / merge. -/
def add_context_memory (ctx : SessionContext) (op : MemOp) : SessionContext :=
  match op with
  | .lastIssue d ts => { ctx with last_issue := some ⟨d, ts⟩ }
  | .currentFlow f => { ctx with current_troubleshooting_flow := some f }
  | .recentTicket t => { ctx with recent_tickets := (t :: ctx.recent_tickets).take 5 }
  | .searchResults q r ts =>
      { ctx with search_history := (⟨q, r, ts⟩ :: ctx.search_history).take 10 }
  | .userPreferences ps =>
      { ctx with user_preferences := ps.foldl setPref ctx.user_preferences }

/-- The value `get_context_memory` returns (Python returns `Any`;
`noneVal` is its final `return None`). -/
inductive ContextValue where
  | lastIssueVal (v : Option LastIssue)
  | flowVal (v : Option FlowMem)
  | ticketsVal (v : List TicketMem)
  | searchVal (v : List SearchMem)
  | prefsVal (v : List (String × String))
  | noneVal
deriving Repr, DecidableEq

/-- `get_context_memory`, keyed on the `ContextType` value strings. -/
def get_context_memory (ctx : SessionContext) (context_type : String) :
    ContextValue :=
  if context_type = "last_issue" then .lastIssueVal ctx.last_issue
  else if context_type = "current_flow" then .flowVal ctx.current_troubleshooting_flow
  else if context_type = "recent_ticket" then .ticketsVal ctx.recent_tickets
  else if context_type = "search_results" then .searchVal ctx.search_history
  else if context_type = "user_preferences" then .prefsVal ctx.user_preferences
  else .noneVal

/-- The `context_data` dict passed to `update_conversation_state` (the only
caller passing one, `enhanced_split_into_subqueries`, passes exactly these
two keys). -/
structure BatchData where
  batch_processing : Bool
  total_queries : Nat
deriving Repr, DecidableEq

/-- `update_conversation_state`: overwrite `state`, shallow-merge the
optional `context_data`. -/
def update_conversation_state (ctx : SessionContext) (new_state : String)
    (context_data : Option BatchData) : SessionContext :=
  let c := { ctx with state := new_state }
  match context_data with
  | none => c
  | some d =>
      { c with batch_processing := d.batch_processing
               total_queries := d.total_queries }

/-- `follow_up_patterns`, in the dict's insertion (= iteration) order. -/
def follow_up_patterns : List (String × List String) :=
  [("that_didnt_work",
    ["that didn't work", "that doesn't work", "still not working",
     "still having issues", "didn't help", "doesn't help", "not working",
     "same problem", "still broken", "didn't fix"]),
   ("need_more_help",
    ["what else", "other options", "another way", "different solution",
     "more help", "something else", "alternative", "what now"]),
   ("clarification",
    ["what do you mean", "how do i", "where is", "which", "what",
     "can you explain", "i don't understand", "confused"]),
   ("status_check",
    ["what's the status", "any update", "how long", "when will",
     "is it ready", "progress", "update on"]),
   ("escalation",
    ["speak to someone", "call someone", "escalate", "manager",
     "human", "person", "phone", "urgent"])]

/-- The keys `detect_follow_up_intent` may put into `context_details`
(absent key = `none`). -/
structure ContextDetails where
  last_issue : Option LastIssue
  troubleshooting_flow : Option FlowMem
  recent_ticket : Option TicketMem
deriving Repr, DecidableEq

/-- The dict returned by `detect_follow_up_intent` (the constant
`confidence` float is presentation-only and not modelled). -/
structure FollowUpResult where
  is_follow_up : Bool
  intent : Option String
  has_context : Bool
  context_details : ContextDetails
deriving Repr, DecidableEq

/-- `detect_follow_up_intent`: first-match substring scan over the phrase
table; context is reported only when an intent was detected. -/
def detect_follow_up_intent (user_message : String) (ctx : SessionContext) :
    FollowUpResult :=
  let message_lower := String.mk (pyStripL (lowerStr user_message).data)
  let intent_detected :=
    (follow_up_patterns.find? (fun ip =>
      ip.2.any (fun p => containsSub p message_lower))).map (fun ip => ip.1)
  match intent_detected with
  | none =>
      { is_follow_up := false, intent := none, has_context := false
        context_details := ⟨none, none, none⟩ }
  | some i =>
      { is_follow_up := true
        intent := some i
        has_context := ctx.last_issue.isSome ||
          ctx.current_troubleshooting_flow.isSome || !ctx.recent_tickets.isEmpty
        context_details :=
          ⟨ctx.last_issue, ctx.current_troubleshooting_flow,
           ctx.recent_tickets.head?⟩ }

def batch_indicators : List String :=
  [" and also ", " also ", " plus ", " additionally ",
   ". also", ". i also", ". can you also", ". another",
   "second question", "another issue", "one more thing"]

/-- `should_batch_queries`: more than one `?`, or any conjunction marker. -/
def should_batch_queries (user_message : String) : Bool :=
  if user_message.data.count '?' > 1 then true
  else
    let message_lower := lowerStr user_message
    batch_indicators.any (fun ind => containsSub ind message_lower)

/-- `re.split(r'\?\s*', ...)` scanner: emit a part at each `?` and swallow
the following whitespace run (`skipWs` marks that run). -/
def splitQAux (skipWs : Bool) (cur : List Char) : List Char → List (List Char)
  | [] => [cur.reverse]
  | c :: rest =>
    if skipWs && isWsChar c then splitQAux true cur rest
    else if c = '?' then cur.reverse :: splitQAux true [] rest
    else splitQAux false (c :: cur) rest

def splitQ (l : List Char) : List (List Char) :=
  splitQAux false [] l

/-- Drop a leading whitespace run (the `\s*` of the fallback patterns). -/
def dropWs (l : List Char) : List Char :=
  l.dropWhile isWsChar

/-- Case-insensitive literal prefix test (`needle` already lowercase),
for the `re.IGNORECASE` fallback patterns. -/
def ciStarts : List Char → List Char → Bool
  | [], _ => true
  | _ :: _, [] => false
  | a :: as, b :: bs => a == lowerChar b && ciStarts as bs

/-- First alternative of `(?:alt1|alt2|...)` matching at the head of `l`;
returns the rest of `l` after the match. -/
def matchAlt (alts : List (List Char)) (l : List Char) : Option (List Char) :=
  match alts.find? (fun a => ciStarts a l) with
  | some a => some (l.drop a.length)
  | none => none

/-- `re.split(r'\.\s*(?:alt1|alt2|...)', msg, re.IGNORECASE)` scanner
(fuel-structured; fuel `length + 1` always suffices). -/
def splitPatAux (alts : List (List Char)) :
    Nat → List Char → List Char → List (List Char)
  | 0, cur, rest => [cur.reverse ++ rest]
  | _ + 1, cur, [] => [cur.reverse]
  | fuel + 1, cur, c :: rest =>
    if c = '.' then
      match matchAlt alts ((dropWs rest)) with
      | some rem => cur.reverse :: splitPatAux alts fuel [] rem
      | none => splitPatAux alts fuel ('.' :: cur) rest
    else splitPatAux alts fuel (c :: cur) rest

def splitPat (alts : List String) (s : String) : List (List Char) :=
  splitPatAux (alts.map (fun a => a.data)) (s.data.length + 1) [] s.data

/-- The `batch_patterns` regex alternatives of `extract_sub_queries`. -/
def batch_patterns : List (List String) :=
  [["also", "additionally", "another", "second"],
   ["can you also", "could you also"],
   ["i also", "i need", "i want"]]

/-- `extract_sub_queries`: split on `?` boundaries re-appending `?` to
non-terminal fragments; if that yields ≤ 1 fragment, fall back to the
sentence-boundary conjunction patterns; cap at 4 fragments, else return
the original message. -/
def extract_sub_queries (user_message : String) : List String :=
  let parts := splitQ user_message.data
  let n := parts.length
  let primary := parts.enum.filterMap (fun ip =>
    let p := pyStripL ip.2
    if p.isEmpty then none
    else if ip.1 < n - 1 ∨
        (ip.1 = n - 1 ∧ user_message.data.getLast? = some '?') then
      some (p ++ ['?'])
    else some p)
  let queries :=
    if primary.length ≤ 1 then
      match batch_patterns.find? (fun alts => (splitPat alts user_message).length > 1) with
      | some alts =>
          ((splitPat alts user_message).map pyStripL).filter (fun p => !p.isEmpty)
      | none => primary
    else primary
  if queries.length > 1 then (queries.take 4).map (fun l => String.mk l)
  else [user_message]

end ContextManager

/-! ### `backend/main.py`: per-tool context updates and the tool-calling loop -/

namespace MainApp

open Helpdesk ContextManager

/-- `MAX_TOOL_TURNS = 6`: maximum tool calling iterations. -/
def MAX_TOOL_TURNS : Nat := 6

/-- The argument keys `update_context_for_tool_call` reads out of the
`eval`-ed tool arguments (`args.get(key, "")`). -/
structure PyArgs where
  issue : Option String
  issue_type : Option String
  question : Option String
  query : Option String
deriving Repr, DecidableEq

/-- `update_context_for_tool_call`: conversation-state transition and
remembered payload keyed on the dispatched tool's name.  `args = none`
models the bare `except: pass` when `eval(arguments)` fails, in which
case nothing is updated. -/
def update_context_for_tool_call (tool_name : String) (args : Option PyArgs)
    (result : String) (now : Nat) (ctx : SessionContext) : SessionContext :=
  match args with
  | none => ctx
  | some a =>
    if tool_name = "create_ticket" then
      let c := update_conversation_state ctx "ticket_creation" none
      add_context_memory c (.recentTicket ⟨a.issue.getD "", result⟩)
    else if tool_name = "start_troubleshooting_flow" then
      let c := update_conversation_state ctx "troubleshooting" none
      add_context_memory c (.currentFlow ⟨a.issue_type.getD "", true⟩)
    else if tool_name = "search_knowledge_base_articles" ∨
        tool_name = "get_enhanced_faq_answer" then
      let c := update_conversation_state ctx "kb_search" none
      let q := if a.question.getD "" ≠ "" then a.question.getD ""
               else a.query.getD ""
      add_context_memory c (.searchResults q result now)
    else ctx

/-- `enhanced_split_into_subqueries`: batch a multi-part message, and as a
side effect reset the conversation state to `general` (with the batch
bookkeeping keys) whenever more than one sub-query was extracted. -/
def enhanced_split_into_subqueries (user_text : String) (ctx : SessionContext) :
    List String × SessionContext :=
  if ¬ should_batch_queries user_text then ([user_text], ctx)
  else
    let subqueries := extract_sub_queries user_text
    let ctx :=
      if subqueries.length > 1 then
        update_conversation_state ctx "general" (some ⟨true, subqueries.length⟩)
      else ctx
    (if ¬ subqueries.isEmpty then subqueries.take 4 else [user_text], ctx)

/-- One structured tool-call request in an LLM completion. -/
structure ToolCall where
  name : String
  arguments : String
deriving Repr, DecidableEq

structure LLMMessage where
  role : String
  content : String
deriving Repr, DecidableEq

/-- An LLM completion: optional text content plus a (possibly empty) list
of tool calls; Python's `if msg.tool_calls` is false for `None`/`[]`. -/
structure LLMReply where
  content : Option String
  tool_calls : List ToolCall
deriving Repr, DecidableEq

/-- `"\n\n".join(...)`. -/
def joinNN (l : List String) : String :=
  String.intercalate "\n\n" l

def apology : String :=
  "I apologize, but I'm having trouble processing your request right now."

def apologyFull : String :=
  "I apologize, but I'm having trouble processing your request right now. Please try again or contact IT support directly."

def completedPrefix : String :=
  "I've completed several operations for you:\n\n"

/-- The per-iteration summary message appended after dispatching tools. -/
def tool_summary_message (results : List String) : LLMMessage :=
  ⟨"user", "Based on the tool results: " ++ joinNN results ++
    "\n\nPlease provide a helpful response to the user."⟩

/-- Result of the fallback tool-calling loop in `chat`:
`final_response`, the `tool_results_accumulated` list, the final
`tool_turns` counter, the message list and the session context. -/
structure LoopOut where
  final_response : String
  accumulated : List String
  tool_turns : Nat
  messages : List LLMMessage
  ctx : SessionContext
deriving Repr, DecidableEq

/-- The `while tool_turns < MAX_TOOL_TURNS` loop of `chat`, by recursion on
the remaining turns.  `llm` is the completion collaborator (a function of
the message list), `dispatch` is `call_tool_by_name`, `evalArgs` the
argument `eval` of `update_context_for_tool_call`.  An exit with
tool calls still pending leaves `final_response` empty (decided after the
loop by `chat_fallback`). -/
def runToolLoop (llm : List LLMMessage → LLMReply)
    (dispatch : String → String → String)
    (evalArgs : String → Option PyArgs) (now : Nat) :
    Nat → List LLMMessage → List String → Nat → SessionContext → LoopOut
  | 0, msgs, acc, turns, ctx => ⟨"", acc, turns, msgs, ctx⟩
  | fuel + 1, msgs, acc, turns, ctx =>
    let reply := llm msgs
    if reply.tool_calls.isEmpty then
      ⟨reply.content.getD apology, acc, turns, msgs, ctx⟩
    else
      let results := reply.tool_calls.map (fun tc => dispatch tc.name tc.arguments)
      let ctx := reply.tool_calls.foldl
        (fun c tc =>
          update_context_for_tool_call tc.name (evalArgs tc.arguments)
            (dispatch tc.name tc.arguments) now c) ctx
      let acc := acc ++ results
      let msgs := if ¬ results.isEmpty then msgs ++ [tool_summary_message results]
                  else msgs
      runToolLoop llm dispatch evalArgs now fuel msgs acc (turns + 1) ctx

/-- The fallback branch of `chat` around the loop: run up to
`MAX_TOOL_TURNS` iterations, then synthesize a final answer from the
accumulated tool outputs if the bound was exhausted, with the apologetic
default as last resort (`if not final_response` twice). -/
def chat_fallback (llm : List LLMMessage → LLMReply)
    (dispatch : String → String → String)
    (evalArgs : String → Option PyArgs) (now : Nat)
    (msgs0 : List LLMMessage) (ctx0 : SessionContext) : LoopOut :=
  let out := runToolLoop llm dispatch evalArgs now MAX_TOOL_TURNS msgs0 [] 0 ctx0
  let fr :=
    if out.final_response = "" ∧ ¬ out.accumulated.isEmpty then
      completedPrefix ++ joinNN out.accumulated
    else out.final_response
  let fr := if fr = "" then apologyFull else fr
  { out with final_response := fr }

end MainApp

/-! ### `backend/functions.py`: the tool dispatcher -/

namespace Functions

open Helpdesk MainApp

/-- The keys of `function_map` in `call_tool_by_name`. -/
def known_tools : List String :=
  ["search_knowledge_base_articles", "get_enhanced_faq_answer",
   "get_faq_answer", "create_ticket", "check_ticket_status",
   "list_my_tickets", "start_troubleshooting_flow", "get_software_info",
   "get_helpdesk_stats", "search_knowledge_with_vector_store",
   "search_enhanced_vector_store", "enhanced_rag_response",
   "agent_function_call"]

/-- `call_tool_by_name`.  `parseJson` abstracts
`json.loads(arguments_json or "{}")` (`none` = `JSONDecodeError`), and
`impl` abstracts the mapped tool functions, returning `.error e` when the
underlying Python call raises an exception with message `e`.  All three
failure modes are converted to text; the function itself is total. -/
def call_tool_by_name (parseJson : String → Option PyArgs)
    (impl : String → PyArgs → Except String String)
    (name : String) (arguments_json : String) : String :=
  match parseJson arguments_json with
  | none => "Error: Invalid JSON arguments provided."
  | some args =>
    if name ∈ known_tools then
      match impl name args with
      | .ok s => s
      | .error e => "Error executing " ++ name ++ ": " ++ e
    else "Unknown tool: " ++ name

end Functions

/-! ### Concrete collaborator stubs used by the witnesses -/

namespace Stubs

open Helpdesk ContextManager MainApp Functions

/-- An LLM collaborator that always requests a tool call. -/
def stubLLM : List LLMMessage → LLMReply :=
  fun _ => ⟨none, [⟨"get_helpdesk_stats", "args"⟩]⟩

def stubDispatch : String → String → String :=
  fun _ _ => "STAT RESULT"

def stubEval : String → Option PyArgs :=
  fun _ => none

/-- A JSON parser stub that fails exactly on the string `"not json"`. -/
def stubParse : String → Option PyArgs :=
  fun s => if s = "not json" then none else some ⟨none, none, none, none⟩

/-- A tool implementation stub where `create_ticket` raises. -/
def stubImpl : String → PyArgs → Except String String :=
  fun n _ => if n = "create_ticket" then .error "db unavailable" else .ok "done"

/-- A session that is mid-troubleshooting. -/
def ctxTroubleshooting : SessionContext :=
  { initContext with state := "troubleshooting" }

/-- A session whose last reported issue is "VPN not connecting". -/
def ctxWithLastIssue : SessionContext :=
  { initContext with last_issue := some ⟨"VPN not connecting", 0⟩ }

end Stubs

/-! ### Extraction helpers and concrete fixtures used by the theorems -/

namespace ContextManager

/-- The ticket payload of a remember operation, if it is one. -/
def ticketOf : MemOp → Option TicketMem
  | .recentTicket t => some t
  | _ => none

/-- The search entry a remember operation stores, if it is one. -/
def searchOf : MemOp → Option SearchMem
  | .searchResults q r ts => some ⟨q, r, ts⟩
  | _ => none

/-- Twelve distinct search events (distinguished by timestamp). -/
def twelveSearches : List MemOp :=
  (List.range 12).map (fun i => .searchResults "q" "r" i)

end ContextManager

namespace TicketManagement

/-- Fixture: an `Urgent` ticket created at time 0 into an empty store. -/
def ticketC3 : Ticket :=
  (create_enhanced_ticket [] 0 "20250101" "demo issue" "user" (some "Urgent") none).1

def dbC3 : List Ticket :=
  (create_enhanced_ticket [] 0 "20250101" "demo issue" "user" (some "Urgent") none).2

/-- The status report for `ticketC3` queried at `created_at + 5`. -/
def infoC3 : StatusInfo :=
  { ticket := ticketC3
    time_elapsed_hours := 5
    is_overdue := true
    status_description := get_status_description "Open" }

end TicketManagement

end Helpdesk


namespace Helpdesk

open TicketManagement ContextManager MainApp Functions Stubs

/-! ### C1: priority auto-derivation -/

/-- C1 counterexample: `create("server is down and no one can login", ...)`
with priority omitted derives `Medium`, not `Critical` — none of the
critical keywords (`"server down"`, `"cannot login"`, ...) occurs as a
substring of that message. -/
theorem c1_counterexample :
    (create_enhanced_ticket [] 0 "20250101" "server is down and no one can login"
      "user" none none).1.priority = "Medium" ∧
    (create_enhanced_ticket [] 0 "20250101" "server is down and no one can login"
      "user" none none).1.priority ≠ "Critical" := by
  constructor <;> decide

/-- C1 (amended): priority auto-derivation is deterministic per the keyword
scan (critical, then urgent, then high, else Medium): a create call with
priority omitted stores exactly `determine_priority issue`; in particular
both `"server is down and no one can login"` (which matches no keyword)
and `"minor cosmetic issue"` derive the default `Medium`. -/
theorem c1_priority_derivation :
    (∀ db now date issue created_by cat,
      (create_enhanced_ticket db now date issue created_by none cat).1.priority
        = determine_priority issue) ∧
    determine_priority "server is down and no one can login" = "Medium" ∧
    determine_priority "minor cosmetic issue" = "Medium" ∧
    (∀ db now date created_by cat,
      (create_enhanced_ticket db now date "server is down and no one can login"
        created_by none cat).1.priority = "Medium") ∧
    (∀ db now date created_by cat,
      (create_enhanced_ticket db now date "minor cosmetic issue"
        created_by none cat).1.priority = "Medium") := by
  refine ⟨fun _ _ _ _ _ _ => rfl, by decide, by decide,
    fun _ _ _ _ _ => ?_, fun _ _ _ _ _ => ?_⟩
  · show determine_priority "server is down and no one can login" = "Medium"
    decide
  · show determine_priority "minor cosmetic issue" = "Medium"
    decide

/-! ### C10: unknown explicitly-supplied priority strings -/

/-- C10 counterexample: the empty string is a supplied priority string that
is not one of the five known values, yet `create` does not store it
verbatim — Python's `if not priority` treats `""` as absent, so the
priority is derived (`"Urgent"` here) and the resolution window is 4h,
not the claimed 72h. -/
theorem c10_counterexample :
    (create_enhanced_ticket [] 0 "20250101" "urgent help" "user"
      (some "") none).1.priority = "Urgent" ∧
    (create_enhanced_ticket [] 0 "20250101" "urgent help" "user"
      (some "") none).1.priority ≠ "" ∧
    (create_enhanced_ticket [] 0 "20250101" "urgent help" "user"
      (some "") none).1.estimated_resolution = 0 + 4 := by
  refine ⟨by decide, by decide, by decide⟩

/-- C10 (amended): for every NON-EMPTY supplied priority string that is not
one of the five known priority values, ticket creation still succeeds
(one ticket is appended), stores that string verbatim as the ticket's
priority, and sets `estimated_resolution` to `created_at + 72` hours (the
lookup's Medium-tier fallback). -/
theorem c10_unknown_priority (db : List Ticket) (now : Nat)
    (date issue created_by s : String) (cat : Option String)
    (hne : s ≠ "")
    (hunknown : s ∉ ["Low", "Medium", "High", "Urgent", "Critical"]) :
    (create_enhanced_ticket db now date issue created_by (some s) cat).1.priority = s ∧
    (create_enhanced_ticket db now date issue created_by (some s) cat).1.estimated_resolution
      = now + 72 ∧
    (create_enhanced_ticket db now date issue created_by (some s) cat).2.length
      = db.length + 1 := by
  simp only [List.mem_cons, List.mem_singleton, not_or] at hunknown
  obtain ⟨h1, h2, h3, h4, h5⟩ := hunknown
  refine ⟨?_, ?_, ?_⟩
  · show (if s = "" then determine_priority issue else s) = s
    simp [hne]
  · show now + resolution_hours (if s = "" then determine_priority issue else s) = now + 72
    simp [hne, resolution_hours, h1, h2, h3, h4, h5]
  · simp [create_enhanced_ticket]

/-- C10 witness: instantiating the amended theorem at the unknown priority
string `"Sev1"`. -/
theorem c10_witness :
    (create_enhanced_ticket [] 0 "20250101" "printer stuck" "user"
      (some "Sev1") none).1.priority = "Sev1" ∧
    (create_enhanced_ticket [] 0 "20250101" "printer stuck" "user"
      (some "Sev1") none).1.estimated_resolution = 0 + 72 ∧
    (create_enhanced_ticket [] 0 "20250101" "printer stuck" "user"
      (some "Sev1") none).2.length = List.length ([] : List Ticket) + 1 :=
  c10_unknown_priority [] 0 "20250101" "printer stuck" "user" "Sev1" none
    (by decide) (by decide)

/-! ### C9: tool dispatch never throws -/

/-- C9: `call_tool_by_name` is a total text-valued function for every tool
name and argument string: a JSON parse failure yields the fixed error
string, an unknown tool name yields `Unknown tool: <name>`, an exception
`e` raised by the underlying tool function is caught and converted to
`Error executing <name>: <e>`, and a successful tool run returns its text
unchanged — no failure propagates to the caller. -/
theorem c9_dispatch_never_throws (parseJson : String → Option PyArgs)
    (impl : String → PyArgs → Except String String) (name args : String) :
    (parseJson args = none →
      call_tool_by_name parseJson impl name args
        = "Error: Invalid JSON arguments provided.") ∧
    (∀ a, parseJson args = some a → name ∉ known_tools →
      call_tool_by_name parseJson impl name args = "Unknown tool: " ++ name) ∧
    (∀ a e, parseJson args = some a → name ∈ known_tools →
      impl name a = .error e →
      call_tool_by_name parseJson impl name args
        = "Error executing " ++ name ++ ": " ++ e) ∧
    (∀ a s, parseJson args = some a → name ∈ known_tools →
      impl name a = .ok s →
      call_tool_by_name parseJson impl name args = s) := by
  refine ⟨fun hp => ?_, fun a hp hn => ?_, fun a e hp hn hi => ?_,
    fun a s hp hn hi => ?_⟩ <;>
    simp [call_tool_by_name, hp] <;> simp [hn] <;> simp [hi]

/-- C9 witness: the three failure conversions and the success path of the
dispatcher, at concrete inputs, via `c9_dispatch_never_throws`. -/
theorem c9_witness :
    call_tool_by_name stubParse stubImpl "create_ticket" "not json"
      = "Error: Invalid JSON arguments provided." ∧
    call_tool_by_name stubParse stubImpl "frobnicate" "x"
      = "Unknown tool: " ++ "frobnicate" ∧
    call_tool_by_name stubParse stubImpl "create_ticket" "x"
      = "Error executing " ++ "create_ticket" ++ ": " ++ "db unavailable" ∧
    call_tool_by_name stubParse stubImpl "get_faq_answer" "x" = "done" :=
  ⟨(c9_dispatch_never_throws stubParse stubImpl "create_ticket" "not json").1
      (by decide),
   (c9_dispatch_never_throws stubParse stubImpl "frobnicate" "x").2.1
      ⟨none, none, none, none⟩ (by decide) (by decide),
   (c9_dispatch_never_throws stubParse stubImpl "create_ticket" "x").2.2.1
      ⟨none, none, none, none⟩ "db unavailable" (by decide) (by decide) rfl,
   (c9_dispatch_never_throws stubParse stubImpl "get_faq_answer" "x").2.2.2
      ⟨none, none, none, none⟩ "done" (by decide) (by decide) rfl⟩

end Helpdesk

namespace Helpdesk

open TicketManagement ContextManager MainApp Functions Stubs

/-! ### C8: batch split idempotence -/

/-- C8: `extract_sub_queries` on the two-question example yields exactly 2
fragments, each ending in `?`, and re-joining them with a single space and
re-splitting yields the same 2 fragments. -/
theorem c8_batch_split_idempotence :
    extract_sub_queries "How do I reset my password? Also, how do I connect to VPN?"
      = ["How do I reset my password?", "Also, how do I connect to VPN?"] ∧
    (extract_sub_queries
        "How do I reset my password? Also, how do I connect to VPN?").length = 2 ∧
    (extract_sub_queries
        "How do I reset my password? Also, how do I connect to VPN?").all
      (fun q => q.data.getLast? == some '?') = true ∧
    extract_sub_queries
        (String.intercalate " "
          (extract_sub_queries
            "How do I reset my password? Also, how do I connect to VPN?"))
      = extract_sub_queries
          "How do I reset my password? Also, how do I connect to VPN?" := by
  refine ⟨by decide, by decide, by decide, by decide⟩

/-! ### C6: follow-up classification context flag -/

/-- C6 counterexample: for the message `"hello"` (which matches no
follow-up phrase) and a session whose context holds a `last_issue`, the
classifier reports `has_context = false` even though the session holds
context — refuting the claimed unconditional iff. -/
theorem c6_counterexample :
    (detect_follow_up_intent "hello" ctxWithLastIssue).has_context = false ∧
    ctxWithLastIssue.last_issue.isSome = true := by
  refine ⟨by decide, by decide⟩

/-- C6 (amended): `has_context` is true iff a follow-up intent was detected
AND the session's context holds at least one of a last issue, an active
troubleshooting flow, or a recent ticket; the round trip at
`last_issue = "VPN not connecting"` and message `"that didn't work"`
yields `is_follow_up = true`, intent `that_didnt_work`, `has_context =
true`, and the context details carry the stored last-issue text
verbatim. -/
theorem c6_follow_up_classification :
    (∀ msg ctx,
      ((detect_follow_up_intent msg ctx).has_context = true ↔
        (detect_follow_up_intent msg ctx).intent.isSome ∧
        (ctx.last_issue.isSome ∨ ctx.current_troubleshooting_flow.isSome ∨
         ctx.recent_tickets ≠ []))) ∧
    (detect_follow_up_intent "that didn't work" ctxWithLastIssue).is_follow_up = true ∧
    (detect_follow_up_intent "that didn't work" ctxWithLastIssue).intent
      = some "that_didnt_work" ∧
    (detect_follow_up_intent "that didn't work" ctxWithLastIssue).has_context = true ∧
    (detect_follow_up_intent "that didn't work" ctxWithLastIssue).context_details.last_issue
      = some ⟨"VPN not connecting", 0⟩ := by
  refine ⟨fun msg ctx => ?_, by decide, by decide, by decide, by decide⟩
  simp only [detect_follow_up_intent]
  split
  · simp
  · simp [List.isEmpty_iff, or_assoc]

/-! ### C7: conversation-state transitions -/

/-- C7 counterexample: a session in `troubleshooting` state that sends a
batched two-question message has its conversation state reset to
`general` by the batch-preprocessing step, with no tool dispatched —
refuting "state changes only via tool dispatch". -/
theorem c7_counterexample :
    (enhanced_split_into_subqueries
        "How do I reset my password? Also, how do I connect to VPN?"
        ctxTroubleshooting).2.state = "general" ∧
    ctxTroubleshooting.state = "troubleshooting" ∧
    ctxTroubleshooting.state ≠ "general" := by
  refine ⟨by decide, by decide, by decide⟩

/-- The conversation state written by `update_context_for_tool_call` is a
function of the dispatched tool's name only (unchanged when the argument
`eval` failed or the tool is not one of the three context-relevant
kinds). -/
lemma update_context_state_formula (tool_name : String) (args : Option PyArgs)
    (result : String) (now : Nat) (ctx : SessionContext) :
    (update_context_for_tool_call tool_name args result now ctx).state =
      match args with
      | none => ctx.state
      | some _ =>
        if tool_name = "create_ticket" then "ticket_creation"
        else if tool_name = "start_troubleshooting_flow" then "troubleshooting"
        else if tool_name = "search_knowledge_base_articles" ∨
            tool_name = "get_enhanced_faq_answer" then "kb_search"
        else ctx.state := by
  cases args with
  | none => rfl
  | some a =>
    simp only [update_context_for_tool_call]
    split
    · rfl
    · split
      · rfl
      · split
        · rfl
        · rfl

/-- C7 (amended): in the per-request orchestration, a session's
conversation state changes only through `update_context_for_tool_call`
(to the state mapped from the dispatched tool's name) or through the
batch-preprocessing step (which can only reset it to `general`); the
tool update is independent of the current time, and plain context-memory
writes never change the state — no transition is time-based. -/
theorem c7_state_transitions :
    (∀ tool_name args result now ctx,
      (update_context_for_tool_call tool_name args result now ctx).state =
        match args with
        | none => ctx.state
        | some _ =>
          if tool_name = "create_ticket" then "ticket_creation"
          else if tool_name = "start_troubleshooting_flow" then "troubleshooting"
          else if tool_name = "search_knowledge_base_articles" ∨
              tool_name = "get_enhanced_faq_answer" then "kb_search"
          else ctx.state) ∧
    (∀ tool_name args result now now' ctx,
      (update_context_for_tool_call tool_name args result now ctx).state =
      (update_context_for_tool_call tool_name args result now' ctx).state) ∧
    (∀ ctx op, (add_context_memory ctx op).state = ctx.state) ∧
    (∀ text ctx,
      (enhanced_split_into_subqueries text ctx).2.state = ctx.state ∨
      (enhanced_split_into_subqueries text ctx).2.state = "general") := by
  refine ⟨update_context_state_formula, fun tool_name args result now now' ctx => ?_,
    fun ctx op => ?_, fun text ctx => ?_⟩
  · rw [update_context_state_formula, update_context_state_formula]
  · cases op <;> rfl
  · simp only [enhanced_split_into_subqueries]
    split
    · exact Or.inl rfl
    · by_cases h : (extract_sub_queries text).length > 1
      · right
        simp [h, update_conversation_state]
      · left
        simp [h]

end Helpdesk

namespace Helpdesk

open TicketManagement ContextManager MainApp Stubs

/-! ### C2: bounded context lists -/

/-- Truncating before consing is the same as truncating after. -/
lemma take_cons_take {α : Type} (a : α) (l : List α) (n : Nat) :
    (a :: l.take n).take n = (a :: l).take n := by
  cases n with
  | zero => simp
  | succ m =>
    rw [List.take_succ_cons, List.take_succ_cons, List.take_take]
    have hm : min m (m + 1) = m := by omega
    rw [hm]

/-- Replaying any sequence of remember operations from a fresh session
leaves `recent_tickets` as the newest-first 5-truncation of the
remembered tickets and `search_history` as the newest-first
10-truncation of the remembered searches. -/
lemma add_context_memory_foldl (ops : List MemOp) :
    (ops.foldl add_context_memory initContext).recent_tickets
      = ((ops.filterMap ticketOf).reverse).take 5 ∧
    (ops.foldl add_context_memory initContext).search_history
      = ((ops.filterMap searchOf).reverse).take 10 := by
  induction ops using List.reverseRecOn with
  | nil => simp [initContext]
  | append_singleton l op ih =>
    obtain ⟨ih1, ih2⟩ := ih
    rw [List.foldl_append]
    simp only [List.foldl_cons, List.foldl_nil]
    cases op <;>
      simp [add_context_memory, List.filterMap_append, ticketOf, searchOf,
        ih1, ih2, take_cons_take]
    all_goals rw [List.take_take]
    all_goals congr 1

/-- C2: for every sequence of remember operations on a fresh session,
`recent_tickets` is exactly the 5 newest remembered tickets (newest
first) and `search_history` the 10 newest remembered searches, so the
caps 5 and 10 are never exceeded; in particular, after remembering 12
distinct search events, recalling `search_history` returns exactly the
10 most recent, newest first. -/
theorem c2_bounded_context_lists :
    (∀ ops : List MemOp,
      (ops.foldl add_context_memory initContext).recent_tickets
        = ((ops.filterMap ticketOf).reverse).take 5 ∧
      (ops.foldl add_context_memory initContext).search_history
        = ((ops.filterMap searchOf).reverse).take 10 ∧
      (ops.foldl add_context_memory initContext).recent_tickets.length ≤ 5 ∧
      (ops.foldl add_context_memory initContext).search_history.length ≤ 10) ∧
    get_context_memory (twelveSearches.foldl add_context_memory initContext)
        "search_results"
      = .searchVal
          [⟨"q", "r", 11⟩, ⟨"q", "r", 10⟩, ⟨"q", "r", 9⟩, ⟨"q", "r", 8⟩,
           ⟨"q", "r", 7⟩, ⟨"q", "r", 6⟩, ⟨"q", "r", 5⟩, ⟨"q", "r", 4⟩,
           ⟨"q", "r", 3⟩, ⟨"q", "r", 2⟩] := by
  refine ⟨fun ops => ?_, by decide⟩
  obtain ⟨h1, h2⟩ := add_context_memory_foldl ops
  refine ⟨h1, h2, ?_, ?_⟩
  · rw [h1]; simp [List.length_take]
  · rw [h2]; simp [List.length_take]

/-! ### C3: overdue computation -/

/-- C3: for every stored ticket found by `get_ticket_status`, `is_overdue`
holds iff the query time is after the ticket's `estimated_resolution` and
its status is neither Resolved nor Closed; in particular a ticket created
with explicit priority `Urgent` (4-hour window) reports overdue at
`created_at + 5` and not overdue at `created_at + 1`. -/
theorem c3_overdue (db : List Ticket) (now : Nat) (tid : String)
    (info : StatusInfo) (h : get_ticket_status db now tid = some info) :
    (info.is_overdue = true ↔
      now > info.ticket.estimated_resolution ∧
      info.ticket.status ≠ "Resolved" ∧ info.ticket.status ≠ "Closed") ∧
    (∀ t0 date created_by issue,
      ((get_ticket_status
          (create_enhanced_ticket [] t0 date issue created_by (some "Urgent") none).2
          (t0 + 5)
          (create_enhanced_ticket [] t0 date issue created_by (some "Urgent") none).1.id).map
        (fun i => i.is_overdue)) = some true ∧
      ((get_ticket_status
          (create_enhanced_ticket [] t0 date issue created_by (some "Urgent") none).2
          (t0 + 1)
          (create_enhanced_ticket [] t0 date issue created_by (some "Urgent") none).1.id).map
        (fun i => i.is_overdue)) = some false) := by
  constructor
  · rcases hf : db.find? (fun t => t.id == tid) with _ | t
    · simp [get_ticket_status, hf] at h
    · simp only [get_ticket_status, hf, Option.some.injEq] at h
      subst h
      simp only [gt_iff_lt, Bool.and_eq_true, decide_eq_true_eq,
        Bool.not_eq_true', Bool.or_eq_false_iff, beq_eq_false_iff_ne, ne_eq]
  · intro t0 date created_by issue
    constructor
    · simp only [create_enhanced_ticket, get_ticket_status]
      simp [resolution_hours, List.find?, show t0 + 4 < t0 + 5 by omega]
    · simp only [create_enhanced_ticket, get_ticket_status]
      simp [resolution_hours, List.find?, show ¬ (t0 + 4 < t0 + 1) by omega]

/-- C3 witness: the overdue iff at the concrete fixture (Urgent ticket
created at time 0, queried at time 5). -/
theorem c3_witness :
    infoC3.is_overdue = true ↔
      5 > infoC3.ticket.estimated_resolution ∧
      infoC3.ticket.status ≠ "Resolved" ∧ infoC3.ticket.status ≠ "Closed" :=
  (c3_overdue dbC3 5 ticketC3.id infoC3 (by decide)).1

/-! ### C4: turn-loop termination with non-empty fallback -/

/-- The loop counter never exceeds its starting value plus the fuel. -/
lemma runToolLoop_turns_le (llm : List LLMMessage → LLMReply)
    (dispatch : String → String → String) (evalArgs : String → Option PyArgs)
    (now : Nat) :
    ∀ fuel msgs acc turns ctx,
      (runToolLoop llm dispatch evalArgs now fuel msgs acc turns ctx).tool_turns
        ≤ turns + fuel := by
  intro fuel
  induction fuel with
  | zero => intro msgs acc turns ctx; simp [runToolLoop]
  | succ n ih =>
    intro msgs acc turns ctx
    simp only [runToolLoop]
    split
    · simp
    · exact le_trans (ih _ _ _ _) (by omega)

/-- Against an LLM that always requests tool calls, the loop burns all its
fuel, produces no in-loop final response, and strictly extends the
accumulated tool results. -/
lemma runToolLoop_always (llm : List LLMMessage → LLMReply)
    (dispatch : String → String → String) (evalArgs : String → Option PyArgs)
    (now : Nat) (h : ∀ ms, (llm ms).tool_calls ≠ []) :
    ∀ fuel msgs acc turns ctx,
      (runToolLoop llm dispatch evalArgs now fuel msgs acc turns ctx).final_response = "" ∧
      (runToolLoop llm dispatch evalArgs now fuel msgs acc turns ctx).tool_turns
        = turns + fuel ∧
      ∃ ext,
        (runToolLoop llm dispatch evalArgs now fuel msgs acc turns ctx).accumulated
          = acc ++ ext ∧ (fuel ≠ 0 → ext ≠ []) := by
  intro fuel
  induction fuel with
  | zero =>
    intro msgs acc turns ctx
    exact ⟨rfl, by simp [runToolLoop], [], by simp [runToolLoop], by simp⟩
  | succ n ih =>
    intro msgs acc turns ctx
    have hne : ¬ (llm msgs).tool_calls.isEmpty := by
      simpa [List.isEmpty_iff] using h msgs
    simp only [runToolLoop]
    rw [if_neg (by simpa using hne)]
    obtain ⟨h1, h2, ext, h3, _⟩ := ih _ _ _ _
    refine ⟨h1, by rw [h2]; omega, ?_⟩
    refine ⟨(llm msgs).tool_calls.map
      (fun tc => dispatch tc.name tc.arguments) ++ ext, ?_, fun _ => ?_⟩
    · rw [h3, List.append_assoc]
    · have : (llm msgs).tool_calls.map (fun tc => dispatch tc.name tc.arguments) ≠ [] := by
        simpa [List.map_eq_nil_iff] using h msgs
      exact fun hc => this (List.append_eq_nil.mp hc).1

/-- The synthesized fallback answer is never the empty string. -/
lemma completedPrefix_append_ne (x : String) : completedPrefix ++ x ≠ "" := by
  intro hc
  have h2 := congrArg String.length hc
  rw [String.length_append] at h2
  have h1 : (0 : Nat) < completedPrefix.length := by decide
  simp at h2
  omega

/-- C4: the orchestration loop's turn counter never exceeds
`MAX_TOOL_TURNS` (6); and for every LLM collaborator that always responds
with tool calls it performs exactly 6 iterations and then returns the
non-empty final answer synthesized by concatenating the accumulated tool
outputs. -/
theorem c4_turn_loop_termination :
    (∀ llm dispatch evalArgs now msgs0 ctx0,
      (chat_fallback llm dispatch evalArgs now msgs0 ctx0).tool_turns
        ≤ MAX_TOOL_TURNS) ∧
    (∀ llm dispatch evalArgs now msgs0 ctx0,
      (∀ ms, (llm ms).tool_calls ≠ []) →
      (chat_fallback llm dispatch evalArgs now msgs0 ctx0).tool_turns
        = MAX_TOOL_TURNS ∧
      (chat_fallback llm dispatch evalArgs now msgs0 ctx0).final_response
        = completedPrefix ++
            joinNN (chat_fallback llm dispatch evalArgs now msgs0 ctx0).accumulated ∧
      (chat_fallback llm dispatch evalArgs now msgs0 ctx0).final_response ≠ "") := by
  constructor
  · intro llm dispatch evalArgs now msgs0 ctx0
    have := runToolLoop_turns_le llm dispatch evalArgs now MAX_TOOL_TURNS msgs0 [] 0 ctx0
    simpa [chat_fallback] using this
  · intro llm dispatch evalArgs now msgs0 ctx0 h
    obtain ⟨h1, h2, ext, h3, hne⟩ :=
      runToolLoop_always llm dispatch evalArgs now h MAX_TOOL_TURNS msgs0 [] 0 ctx0
    have hext : ext ≠ [] := hne (by decide)
    have haccne :
        ¬ (runToolLoop llm dispatch evalArgs now MAX_TOOL_TURNS msgs0 [] 0 ctx0).accumulated.isEmpty := by
      rw [h3]
      simpa [List.isEmpty_iff] using hext
    simp only [chat_fallback]
    rw [if_pos (And.intro h1 haccne), if_neg (completedPrefix_append_ne _)]
    exact ⟨by simpa using h2, rfl, completedPrefix_append_ne _⟩

/-- C4 witness: the bound, the synthesized concatenation and its
non-emptiness at a concrete always-tool-calling LLM stub. -/
theorem c4_witness :
    (chat_fallback stubLLM stubDispatch stubEval 0 [] initContext).tool_turns
      = MAX_TOOL_TURNS ∧
    (chat_fallback stubLLM stubDispatch stubEval 0 [] initContext).final_response
      = completedPrefix ++
          joinNN (chat_fallback stubLLM stubDispatch stubEval 0 [] initContext).accumulated ∧
    (chat_fallback stubLLM stubDispatch stubEval 0 [] initContext).final_response ≠ "" :=
  c4_turn_loop_termination.2 stubLLM stubDispatch stubEval 0 [] initContext
    (fun ms => by simp [stubLLM])

end Helpdesk

namespace Helpdesk

namespace TicketManagement

/-! ### C5: ticket id uniqueness and ordering -/

/-- The digit expansion does not depend on the fuel, as long as it is
sufficient. -/
lemma toDigitsAux_congr : ∀ (n fuel₁ fuel₂ : Nat), n < fuel₁ → n < fuel₂ →
    toDigitsAux fuel₁ n = toDigitsAux fuel₂ n := by
  intro n
  induction n using Nat.strong_induction_on with
  | _ n ih =>
    intro fuel₁ fuel₂ h₁ h₂
    cases fuel₁ with
    | zero => omega
    | succ f₁ =>
      cases fuel₂ with
      | zero => omega
      | succ f₂ =>
        simp only [toDigitsAux]
        by_cases h10 : n < 10
        · simp [h10]
        · rw [if_neg h10, if_neg h10]
          have hdiv : n / 10 < n := Nat.div_lt_self (by omega) (by omega)
          rw [ih (n / 10) hdiv f₁ f₂ (by omega) (by omega)]

lemma decDigits_lt10 {n : Nat} (h : n < 10) : decDigits n = [n] := by
  simp [decDigits, toDigitsAux, h]

lemma decDigits_ge10 {n : Nat} (h : 10 ≤ n) :
    decDigits n = decDigits (n / 10) ++ [n % 10] := by
  show toDigitsAux (n + 1) n = _
  rw [show toDigitsAux (n + 1) n
      = if n < 10 then [n] else toDigitsAux n (n / 10) ++ [n % 10] from rfl]
  rw [if_neg (by omega)]
  have hdiv : n / 10 < n := Nat.div_lt_self (by omega) (by omega)
  rw [toDigitsAux_congr (n / 10) n (n / 10 + 1) (by omega) (by omega)]
  rfl

lemma valBE_foldl (l : List Nat) (a : Nat) :
    l.foldl (fun acc d => 10 * acc + d) a = a * 10 ^ l.length + valBE l := by
  induction l generalizing a with
  | nil => simp [valBE]
  | cons d t ih =>
    show List.foldl _ (10 * a + d) t = a * 10 ^ (t.length + 1) + valBE (d :: t)
    have hv : valBE (d :: t) = d * 10 ^ t.length + valBE t := by
      show List.foldl _ (10 * 0 + d) t = _
      rw [ih (10 * 0 + d)]
      ring
    rw [ih (10 * a + d), hv]
    ring

lemma valBE_cons (d : Nat) (t : List Nat) :
    valBE (d :: t) = d * 10 ^ t.length + valBE t := by
  show List.foldl _ (10 * 0 + d) t = _
  rw [valBE_foldl]
  ring

lemma valBE_append_digit (l : List Nat) (d : Nat) :
    valBE (l ++ [d]) = 10 * valBE l + d := by
  show List.foldl _ 0 (l ++ [d]) = _
  rw [List.foldl_append]
  rfl

lemma valBE_decDigits : ∀ n, valBE (decDigits n) = n := by
  intro n
  induction n using Nat.strong_induction_on with
  | _ n ih =>
    by_cases h : n < 10
    · rw [decDigits_lt10 h]
      show 10 * 0 + n = n
      omega
    · rw [decDigits_ge10 (by omega), valBE_append_digit,
        ih (n / 10) (Nat.div_lt_self (by omega) (by omega))]
      omega

lemma decDigits_all_lt : ∀ n, ∀ d ∈ decDigits n, d < 10 := by
  intro n
  induction n using Nat.strong_induction_on with
  | _ n ih =>
    intro d hd
    by_cases h : n < 10
    · rw [decDigits_lt10 h] at hd
      simp at hd
      omega
    · rw [decDigits_ge10 (by omega)] at hd
      rcases List.mem_append.mp hd with h1 | h2
      · exact ih (n / 10) (Nat.div_lt_self (by omega) (by omega)) d h1
      · simp at h2
        omega

lemma decDigits_length_le : ∀ n k, 1 ≤ k → n < 10 ^ k →
    (decDigits n).length ≤ k := by
  intro n
  induction n using Nat.strong_induction_on with
  | _ n ih =>
    intro k hk hn
    by_cases h : n < 10
    · rw [decDigits_lt10 h]
      simpa using hk
    · have hk2 : 2 ≤ k := by
        by_contra hcon
        have hk1 : k = 1 := by omega
        subst hk1
        simp at hn
        omega
      rw [decDigits_ge10 (by omega), List.length_append]
      have hpow : (10 : Nat) ^ k = 10 ^ (k - 1) * 10 := by
        rw [← pow_succ]
        congr 1
        omega
      have hdiv : n / 10 < 10 ^ (k - 1) := by
        rw [Nat.div_lt_iff_lt_mul (by omega : (0 : Nat) < 10)]
        exact hpow ▸ hn
      have := ih (n / 10) (Nat.div_lt_self (by omega) (by omega)) (k - 1)
        (by omega) hdiv
      simp only [List.length_singleton]
      omega

lemma pad4_length {l : List Nat} (h : l.length ≤ 4) : (pad4 l).length = 4 := by
  simp [pad4]
  omega

lemma valBE_pad4 (l : List Nat) : valBE (pad4 l) = valBE l := by
  show List.foldl _ 0 (List.replicate (4 - l.length) 0 ++ l) = _
  rw [List.foldl_append]
  have hz : ∀ k, List.foldl (fun acc d => 10 * acc + d) 0 (List.replicate k 0) = 0 := by
    intro k
    induction k with
    | zero => rfl
    | succ m ihm =>
        rw [List.replicate_succ]
        show List.foldl _ (10 * 0 + 0) _ = 0
        simpa using ihm
  rw [hz]
  rfl

lemma pad4_all_lt {l : List Nat} (h : ∀ d ∈ l, d < 10) :
    ∀ d ∈ pad4 l, d < 10 := by
  intro d hd
  rcases List.mem_append.mp hd with h1 | h2
  · have := List.eq_of_mem_replicate h1
    omega
  · exact h d h2

lemma digitChar_inj_lt10 : ∀ a < 10, ∀ b < 10,
    Nat.digitChar a = Nat.digitChar b → a = b := by decide

lemma digitChar_mono : ∀ a < 10, ∀ b < 10,
    a < b → Nat.digitChar a < Nat.digitChar b := by decide

lemma char_lt_irrefl (c : Char) : ¬ c < c := by
  simp [Char.lt_def]

lemma valBE_lt (l : List Nat) (h : ∀ d ∈ l, d < 10) :
    valBE l < 10 ^ l.length := by
  induction l with
  | nil =>
      show (0 : Nat) < 10 ^ 0
      omega
  | cons d t ih =>
    rw [valBE_cons]
    have hd : d < 10 := h d (by simp)
    have ht := ih (fun x hx => h x (by simp [hx]))
    rw [List.length_cons, pow_succ]
    calc d * 10 ^ t.length + valBE t
        < d * 10 ^ t.length + 10 ^ t.length := Nat.add_lt_add_left ht _
      _ = (d + 1) * 10 ^ t.length := by ring
      _ ≤ 10 * 10 ^ t.length := Nat.mul_le_mul_right _ (by omega)
      _ = 10 ^ t.length * 10 := by ring

/-- Equal-length digit lists compare lexicographically (after rendering to
characters) exactly as their numeric values. -/
lemma lex_map_digitChar : ∀ (l₁ l₂ : List Nat), l₁.length = l₂.length →
    (∀ d ∈ l₁, d < 10) → (∀ d ∈ l₂, d < 10) → valBE l₁ < valBE l₂ →
    List.lt (l₁.map Nat.digitChar) (l₂.map Nat.digitChar) := by
  intro l₁
  induction l₁ with
  | nil =>
    intro l₂ hlen _ _ hv
    cases l₂ with
    | nil =>
        exfalso
        exact absurd hv (by simp [valBE])
    | cons d₂ t₂ => simp at hlen
  | cons d₁ t₁ ih =>
    intro l₂ hlen h1 h2 hv
    cases l₂ with
    | nil => simp at hlen
    | cons d₂ t₂ =>
      simp only [List.length_cons, Nat.add_right_cancel_iff] at hlen
      have hd₁ : d₁ < 10 := h1 d₁ (by simp)
      have hd₂ : d₂ < 10 := h2 d₂ (by simp)
      simp only [List.map_cons]
      rcases Nat.lt_trichotomy d₁ d₂ with hlt | heq | hgt
      · exact List.lt.head _ _ (digitChar_mono d₁ hd₁ d₂ hd₂ hlt)
      · subst heq
        have hv' : valBE t₁ < valBE t₂ := by
          rw [valBE_cons, valBE_cons, hlen] at hv
          exact Nat.lt_of_add_lt_add_left hv
        exact List.lt.tail (char_lt_irrefl _) (char_lt_irrefl _)
          (ih t₂ hlen (fun x hx => h1 x (by simp [hx]))
            (fun x hx => h2 x (by simp [hx])) hv')
      · exfalso
        rw [valBE_cons, valBE_cons, hlen] at hv
        have hb : valBE t₂ < 10 ^ t₂.length :=
          valBE_lt t₂ (fun x hx => h2 x (by simp [hx]))
        have hcontra : d₂ * 10 ^ t₂.length + valBE t₂
            < d₁ * 10 ^ t₂.length + valBE t₁ := by
          calc d₂ * 10 ^ t₂.length + valBE t₂
              < d₂ * 10 ^ t₂.length + 10 ^ t₂.length := Nat.add_lt_add_left hb _
            _ = (d₂ + 1) * 10 ^ t₂.length := by ring
            _ ≤ d₁ * 10 ^ t₂.length := Nat.mul_le_mul_right _ (by omega)
            _ ≤ d₁ * 10 ^ t₂.length + valBE t₁ := Nat.le_add_right _ _
        exact Nat.lt_asymm hv hcontra

/-- A common prefix preserves lexicographic comparison. -/
lemma list_lt_append_left (p : List Char) {a b : List Char} (h : List.lt a b) :
    List.lt (p ++ a) (p ++ b) := by
  induction p with
  | nil => simpa using h
  | cons c cs ih =>
    simp only [List.cons_append]
    exact List.lt.tail (char_lt_irrefl c) (char_lt_irrefl c) ih

lemma string_lt_of_data_lt {s t : String} (h : List.lt s.data t.data) : s < t := by
  rw [String.lt_iff_toList_lt]
  rw [List.lt_iff_lex_lt] at h
  exact h

/-- The rendered, padded sequence number determines the number. -/
lemma map_digitChar_inj : ∀ (l₁ l₂ : List Nat), (∀ d ∈ l₁, d < 10) →
    (∀ d ∈ l₂, d < 10) → l₁.map Nat.digitChar = l₂.map Nat.digitChar →
    l₁ = l₂ := by
  intro l₁
  induction l₁ with
  | nil =>
    intro l₂ _ _ h
    cases l₂ with
    | nil => rfl
    | cons d t => simp at h
  | cons d t ih =>
    intro l₂ h1 h2 h
    cases l₂ with
    | nil => simp at h
    | cons e s =>
      simp only [List.map_cons, List.cons.injEq] at h
      obtain ⟨hh, ht⟩ := h
      have hde : d = e := digitChar_inj_lt10 d (h1 d (by simp)) e (h2 e (by simp)) hh
      subst hde
      rw [ih s (fun x hx => h1 x (by simp [hx])) (fun x hx => h2 x (by simp [hx])) ht]

lemma seq_data_inj {m n : Nat}
    (h : (pad4 (decDigits m)).map Nat.digitChar
        = (pad4 (decDigits n)).map Nat.digitChar) : m = n := by
  have hlists : pad4 (decDigits m) = pad4 (decDigits n) :=
    map_digitChar_inj _ _ (pad4_all_lt (decDigits_all_lt m))
      (pad4_all_lt (decDigits_all_lt n)) h
  have hval := congrArg valBE hlists
  rw [valBE_pad4, valBE_pad4, valBE_decDigits, valBE_decDigits] at hval
  exact hval

/-- Within one day, the generated ids are injective in the ticket count. -/
lemma generate_ticket_id_inj (date : String) {a b : Nat}
    (h : generate_ticket_id date a = generate_ticket_id date b) : a = b := by
  have hdata := congrArg String.data h
  simp only [generate_ticket_id, String.data_append] at hdata
  have h2 := List.append_cancel_left hdata
  have h4 : a + 1 = b + 1 := seq_data_inj h2
  omega

/-- Within one day and while the sequence number stays at most 9999 (so
the `%04d` field keeps a fixed width), ids grow lexicographically with
the ticket count. -/
lemma generate_ticket_id_lt (date : String) {a b : Nat}
    (hb : b + 1 ≤ 9999) (hab : a < b) :
    generate_ticket_id date a < generate_ticket_id date b := by
  have hpow : (10 : Nat) ^ 4 = 10000 := by norm_num
  have hla : (decDigits (a + 1)).length ≤ 4 :=
    decDigits_length_le (a + 1) 4 (by omega) (by rw [hpow]; omega)
  have hlb : (decDigits (b + 1)).length ≤ 4 :=
    decDigits_length_le (b + 1) 4 (by omega) (by rw [hpow]; omega)
  apply string_lt_of_data_lt
  simp only [generate_ticket_id, String.data_append]
  apply list_lt_append_left
  show List.lt ((pad4 (decDigits (a + 1))).map Nat.digitChar)
    ((pad4 (decDigits (b + 1))).map Nat.digitChar)
  apply lex_map_digitChar
  · rw [pad4_length hla, pad4_length hlb]
  · exact pad4_all_lt (decDigits_all_lt (a + 1))
  · exact pad4_all_lt (decDigits_all_lt (b + 1))
  · rw [valBE_pad4, valBE_pad4, valBE_decDigits, valBE_decDigits]
    omega

/-- C5 counterexample: within one day, at the transition from sequence
number 9999 to 10000 (i.e. calls 9999 and 10000 of a sequential run from
an empty store), the generated ids are still distinct but NOT
lexicographically increasing — `INC202501019999` is lexicographically
greater than `INC2025010110000`. -/
theorem c5_counterexample :
    ¬ (generate_ticket_id "20250101" 9998 < generate_ticket_id "20250101" 9999) ∧
    generate_ticket_id "20250101" 9998 ≠ generate_ticket_id "20250101" 9999 := by
  constructor
  · intro hlt
    rw [String.lt_iff_toList_lt] at hlt
    exact absurd hlt (by decide)
  · decide

/-- C5 (amended): each sequential create appends exactly one ticket whose
id is `generate_ticket_id date (current count)`; for every run length N
the N generated ids are pairwise distinct, and they are lexicographically
increasing as long as the day's sequence numbers stay at most 9999 (the
zero-padded field keeps a fixed width); beyond that the padding overflows
and the lexicographic ordering fails (see the counterexample). -/
theorem c5_ticket_ids (date : String) (c0 N i j : Nat)
    (hij : i < j) (hjN : j < N) :
    generate_ticket_id date (c0 + i) ≠ generate_ticket_id date (c0 + j) ∧
    (c0 + N ≤ 9999 →
      generate_ticket_id date (c0 + i) < generate_ticket_id date (c0 + j)) ∧
    (∀ db now issue created_by p c,
      (create_enhanced_ticket (db : List Ticket) now date issue created_by p c).1.id
        = generate_ticket_id date db.length ∧
      (create_enhanced_ticket db now date issue created_by p c).2.length
        = db.length + 1) := by
  refine ⟨fun h => ?_, fun hN => ?_,
    fun db now issue created_by p c => ⟨rfl, by simp [create_enhanced_ticket]⟩⟩
  · have := generate_ticket_id_inj date h
    omega
  · exact generate_ticket_id_lt date (by omega) (by omega)

/-- C5 witness: distinctness and lexicographic growth of the first two ids
of a 3-call run on an empty store. -/
theorem c5_witness :
    generate_ticket_id "20250101" 0 ≠ generate_ticket_id "20250101" 1 ∧
    generate_ticket_id "20250101" 0 < generate_ticket_id "20250101" 1 := by
  have h := c5_ticket_ids "20250101" 0 3 0 1 (by omega) (by omega)
  exact ⟨by simpa using h.1, by simpa using h.2.1 (by omega)⟩

end TicketManagement

end Helpdesk
